import Mathlib

/-!
Verification of the United trip-value calculator
(`src/components/trip-calculator.tsx`).

The calculator is a pure function from a validated form record to a
breakdown of monetary components; the validator is the zod `formSchema`.
JavaScript numbers are embedded as rationals (ℚ), `Math.floor` as
`Int.floor`, optional fields as `Option`, and the zod object schema as an
error-accumulating validation function.
-/

namespace TripCalc

/-- The `position` enum of the form schema: `z.enum(["Speaker", "Galley", "Purser"])`. -/
inductive Position where
  | Speaker
  | Galley
  | Purser
deriving DecidableEq

/-- The validated form record (the `FormValues` type of the source).
`aircraft` and `hoursInWidebody` are the two optional fields. -/
structure FormValues where
  internationalTrip : Bool
  seniorityYears : ℚ
  tafb : ℚ
  hourlyRate : ℚ
  credit : ℚ
  position : Position
  isMexicoCaribbean : Bool
  nightPayHours : ℚ
  aircraft : Option String
  hoursInWidebody : Option ℚ
deriving DecidableEq

/-- The result record returned by `calculateTripValue`. -/
@[ext]
structure TripResult where
  perdiem : ℚ
  perdiemValue : ℚ
  positionCredit : ℚ
  internationalCredit : ℚ
  nightPayCredit : ℚ
  totalTripValue : ℚ
deriving DecidableEq

/-- `const seniorityFactor = Math.floor(values.seniorityYears / 2)`. -/
def seniorityFactor (values : FormValues) : ℤ :=
  ⌊values.seniorityYears / 2⌋

/-- The per-diem rate: `2.7 + seniorityFactor * 0.05` on international trips,
`2.2 + seniorityFactor * 0.05` otherwise. -/
def perdiem (values : FormValues) : ℚ :=
  if values.internationalTrip then
    2.7 + (seniorityFactor values : ℚ) * 0.05
  else
    2.2 + (seniorityFactor values : ℚ) * 0.05

/-- `const perdiemValue = values.tafb * perdiem`. -/
def perdiemValue (values : FormValues) : ℚ :=
  values.tafb * perdiem values

/-- `const internationalCredit = values.internationalTrip ? values.credit * 2 : 0`. -/
def internationalCredit (values : FormValues) : ℚ :=
  if values.internationalTrip then values.credit * 2 else 0

/-- The position-credit branch of `calculateTripValue`.
`values.aircraft || ""` is embedded as `values.aircraft.getD ""` and
`values.hoursInWidebody || 0` as `values.hoursInWidebody.getD 0`
(for a numeric option, `0 || 0` and `undefined || 0` both yield `0`). -/
def positionCredit (values : FormValues) : ℚ :=
  if values.position = Position.Purser then
    if values.aircraft.getD "" ∈ ["A319", "A320", "B737"] then
      if values.isMexicoCaribbean then values.credit * 2 else values.credit * 1
    else if values.aircraft.getD "" ∈ ["B737-800", "B737-900", "B757"] then
      if values.isMexicoCaribbean then values.credit * 3 else values.credit * 2
    else if values.aircraft = some "widebody" then
      if values.isMexicoCaribbean then values.credit * 4 else values.credit * 3
    else 0
  else if values.position = Position.Galley then
    values.hoursInWidebody.getD 0
  else if values.position = Position.Speaker then
    values.credit * 2.5
  else 0

/-- `const nightPayCredit = values.nightPayHours / 2`. -/
def nightPayCredit (values : FormValues) : ℚ :=
  values.nightPayHours / 2

/-- `const baseValue = values.hourlyRate * values.credit`. -/
def baseValue (values : FormValues) : ℚ :=
  values.hourlyRate * values.credit

/-- `const totalTripValue = baseValue + perdiemValue + positionCredit +
internationalCredit + nightPayCredit`. -/
def totalTripValue (values : FormValues) : ℚ :=
  baseValue values + perdiemValue values + positionCredit values
    + internationalCredit values + nightPayCredit values

/-- `calculateTripValue` assembles the returned record. -/
def calculateTripValue (values : FormValues) : TripResult :=
  { perdiem := perdiem values
    perdiemValue := perdiemValue values
    positionCredit := positionCredit values
    internationalCredit := internationalCredit values
    nightPayCredit := nightPayCredit values
    totalTripValue := totalTripValue values }

/-- A validated input: every numeric field that the schema checks with
`.min(0)` is non-negative (for the optional `hoursInWidebody`, when present). -/
def Validated (v : FormValues) : Prop :=
  0 ≤ v.seniorityYears ∧ 0 ≤ v.tafb ∧ 0 ≤ v.hourlyRate ∧ 0 ≤ v.credit ∧
    0 ≤ v.nightPayHours ∧ 0 ≤ v.hoursInWidebody.getD 0

instance (v : FormValues) : Decidable (Validated v) :=
  show Decidable (0 ≤ v.seniorityYears ∧ 0 ≤ v.tafb ∧ 0 ≤ v.hourlyRate ∧
    0 ≤ v.credit ∧ 0 ≤ v.nightPayHours ∧ 0 ≤ v.hoursInWidebody.getD 0) from
  inferInstance

/-- Scenario A of the spec: domestic Speaker trip. -/
def vA : FormValues :=
  { internationalTrip := false, seniorityYears := 4, tafb := 10,
    hourlyRate := 50, credit := 20, position := Position.Speaker,
    isMexicoCaribbean := false, nightPayHours := 4,
    aircraft := none, hoursInWidebody := none }

/-- Scenario B of the spec: international Purser trip on a B757 to a
regional destination. -/
def vB : FormValues :=
  { internationalTrip := true, seniorityYears := 10, tafb := 20,
    hourlyRate := 60, credit := 30, position := Position.Purser,
    isMexicoCaribbean := true, nightPayHours := 0,
    aircraft := some "B757", hoursInWidebody := none }

example : perdiem vA = 23/10 := by
  norm_num [perdiem, seniorityFactor, vA, Int.floor_ofNat]

example : positionCredit vA = 50 := by
  norm_num [positionCredit, vA]
  decide

example : totalTripValue vA = 1075 := by
  norm_num [totalTripValue, baseValue, perdiemValue, positionCredit,
    internationalCredit, nightPayCredit, perdiem, seniorityFactor, vA,
    Int.floor_ofNat]
  simp +decide
  norm_num

example : perdiem vB = 295/100 := by
  norm_num [perdiem, seniorityFactor, vB, Int.floor_ofNat]

example : positionCredit vB = 90 := by
  norm_num [positionCredit, vB]
  decide

example : totalTripValue vB = 2009 := by
  norm_num [totalTripValue, baseValue, perdiemValue, positionCredit,
    internationalCredit, nightPayCredit, perdiem, seniorityFactor, vB,
    Int.floor_ofNat]
  simp +decide
  norm_num

/-- C1: for every validated input, `totalTripValue` is exactly
`baseValue + perdiemValue + positionCredit + internationalCredit +
nightPayCredit`, with `baseValue = hourlyRate * credit`,
`perdiemValue = perdiem * tafb`, `internationalCredit = credit * 2` on
international trips and `0` otherwise, and
`nightPayCredit = nightPayHours / 2`; there are no other terms. -/
theorem C1_total_is_exact_sum (v : FormValues) (_hv : Validated v) :
    (calculateTripValue v).totalTripValue =
      v.hourlyRate * v.credit + (calculateTripValue v).perdiemValue
        + (calculateTripValue v).positionCredit
        + (calculateTripValue v).internationalCredit
        + (calculateTripValue v).nightPayCredit ∧
    (calculateTripValue v).perdiemValue = (calculateTripValue v).perdiem * v.tafb ∧
    (calculateTripValue v).internationalCredit =
      (if v.internationalTrip then v.credit * 2 else 0) ∧
    (calculateTripValue v).nightPayCredit = v.nightPayHours / 2 := by
  refine ⟨rfl, ?_, rfl, rfl⟩
  simp [calculateTripValue, perdiemValue, mul_comm]

/-- Witness for C1 at Scenario A's input. -/
theorem C1_total_is_exact_sum_witness :
    Validated vA ∧
    ((calculateTripValue vA).totalTripValue =
      vA.hourlyRate * vA.credit + (calculateTripValue vA).perdiemValue
        + (calculateTripValue vA).positionCredit
        + (calculateTripValue vA).internationalCredit
        + (calculateTripValue vA).nightPayCredit ∧
    (calculateTripValue vA).perdiemValue = (calculateTripValue vA).perdiem * vA.tafb ∧
    (calculateTripValue vA).internationalCredit =
      (if vA.internationalTrip then vA.credit * 2 else 0) ∧
    (calculateTripValue vA).nightPayCredit = vA.nightPayHours / 2) :=
  ⟨by decide, C1_total_is_exact_sum vA (by decide)⟩

/-- C2: for every validated input, the per-diem rate is
`2.70 + ⌊seniorityYears / 2⌋ * 0.05` on international trips and
`2.20 + ⌊seniorityYears / 2⌋ * 0.05` otherwise. -/
theorem C2_perdiem_formula (v : FormValues) (_hv : Validated v) :
    (calculateTripValue v).perdiem =
      if v.internationalTrip then
        2.7 + (⌊v.seniorityYears / 2⌋ : ℚ) * 0.05
      else
        2.2 + (⌊v.seniorityYears / 2⌋ : ℚ) * 0.05 := by
  simp [calculateTripValue, perdiem, seniorityFactor]

/-- Witness for C2 at Scenario B's input. -/
theorem C2_perdiem_formula_witness :
    Validated vB ∧
    (calculateTripValue vB).perdiem =
      (if vB.internationalTrip then
        2.7 + (⌊vB.seniorityYears / 2⌋ : ℚ) * 0.05
      else
        2.2 + (⌊vB.seniorityYears / 2⌋ : ℚ) * 0.05) :=
  ⟨by decide, C2_perdiem_formula vB (by decide)⟩

/-- C3: for a validated Purser input, `positionCredit` follows the
aircraft/region table: A319, A320, B737 give credit × 2 regional and
credit × 1 otherwise; B737-800, B737-900, B757 give credit × 3 regional and
credit × 2 otherwise; widebody gives credit × 4 regional and credit × 3
otherwise; any other or absent aircraft gives 0 regardless of the regional
flag (`isMexicoCaribbean` in the source). -/
theorem C3_purser_table (v : FormValues) (_hv : Validated v)
    (hp : v.position = Position.Purser) :
    (∀ s, v.aircraft = some s → s ∈ ["A319", "A320", "B737"] →
      (calculateTripValue v).positionCredit =
        if v.isMexicoCaribbean then v.credit * 2 else v.credit * 1) ∧
    (∀ s, v.aircraft = some s → s ∈ ["B737-800", "B737-900", "B757"] →
      (calculateTripValue v).positionCredit =
        if v.isMexicoCaribbean then v.credit * 3 else v.credit * 2) ∧
    (v.aircraft = some "widebody" →
      (calculateTripValue v).positionCredit =
        if v.isMexicoCaribbean then v.credit * 4 else v.credit * 3) ∧
    ((v.aircraft = none ∨ ∀ s, v.aircraft = some s →
        s ∉ ["A319", "A320", "B737", "B737-800", "B737-900", "B757", "widebody"]) →
      (calculateTripValue v).positionCredit = 0) := by
  refine ⟨?_, ?_, ?_, ?_⟩
  · intro s ha hmem
    simp only [List.mem_cons, List.mem_singleton, List.not_mem_nil, or_false] at hmem
    rcases hmem with h | h | h <;> subst h <;>
      simp +decide [calculateTripValue, positionCredit, hp, ha]
  · intro s ha hmem
    simp only [List.mem_cons, List.mem_singleton, List.not_mem_nil, or_false] at hmem
    rcases hmem with h | h | h <;> subst h <;>
      simp +decide [calculateTripValue, positionCredit, hp, ha]
  · intro ha
    simp +decide [calculateTripValue, positionCredit, hp, ha]
  · rintro (ha | ha)
    · simp +decide [calculateTripValue, positionCredit, hp, ha]
    · rcases hcase : v.aircraft with _ | s
      · simp +decide [calculateTripValue, positionCredit, hp, hcase]
      · have hs := ha s hcase
        simp only [List.mem_cons, List.mem_singleton, List.not_mem_nil, or_false,
          not_or] at hs
        obtain ⟨h1, h2, h3, h4, h5, h6, h7⟩ := hs
        simp [calculateTripValue, positionCredit, hp, hcase, h1, h2, h3, h4, h5, h6, h7]

/-- Witness for C3 at Scenario B's input (Purser on a B757). -/
theorem C3_purser_table_witness :
    Validated vB ∧ vB.position = Position.Purser ∧
    (∀ s, vB.aircraft = some s → s ∈ ["B737-800", "B737-900", "B757"] →
      (calculateTripValue vB).positionCredit =
        if vB.isMexicoCaribbean then vB.credit * 3 else vB.credit * 2) :=
  ⟨by decide, rfl, (C3_purser_table vB (by decide) rfl).2.1⟩

/-- C4: for a validated Galley input, `positionCredit` equals
`hoursInWidebody` when present and 0 when absent, and is independent of
`credit`, the regional flag, and `aircraft`: two Galley inputs that agree on
`hoursInWidebody` have equal `positionCredit`. -/
theorem C4_galley_isolation (v : FormValues) (_hv : Validated v)
    (hp : v.position = Position.Galley) :
    (∀ h, v.hoursInWidebody = some h → (calculateTripValue v).positionCredit = h) ∧
    (v.hoursInWidebody = none → (calculateTripValue v).positionCredit = 0) ∧
    (∀ v₂, Validated v₂ → v₂.position = Position.Galley →
      v₂.hoursInWidebody = v.hoursInWidebody →
      (calculateTripValue v₂).positionCredit = (calculateTripValue v).positionCredit) := by
  refine ⟨?_, ?_, ?_⟩
  · intro h hsome
    simp [calculateTripValue, positionCredit, hp, hsome]
  · intro hnone
    simp [calculateTripValue, positionCredit, hp, hnone]
  · intro v₂ _ hp₂ hw
    simp [calculateTripValue, positionCredit, hp, hp₂, hw]

/-- Witness for C4: a concrete Galley input with 12 widebody hours and all
other credit-affecting fields nonzero (Scenario C shape). -/
theorem C4_galley_isolation_witness :
    Validated
      { internationalTrip := true, seniorityYears := 6, tafb := 30,
        hourlyRate := 40, credit := 25, position := Position.Galley,
        isMexicoCaribbean := true, nightPayHours := 8,
        aircraft := some "widebody", hoursInWidebody := some 12 } ∧
    (calculateTripValue
      { internationalTrip := true, seniorityYears := 6, tafb := 30,
        hourlyRate := 40, credit := 25, position := Position.Galley,
        isMexicoCaribbean := true, nightPayHours := 8,
        aircraft := some "widebody", hoursInWidebody := some 12 }).positionCredit = 12 :=
  ⟨by decide,
    (C4_galley_isolation
      { internationalTrip := true, seniorityYears := 6, tafb := 30,
        hourlyRate := 40, credit := 25, position := Position.Galley,
        isMexicoCaribbean := true, nightPayHours := 8,
        aircraft := some "widebody", hoursInWidebody := some 12 }
      (by decide) rfl).1 12 rfl⟩

/-- C5: for every validated input, raising `seniorityYears` by 2 while
holding every other field fixed raises the per-diem rate by exactly 0.05. -/
theorem C5_seniority_shift (v : FormValues) (_hv : Validated v) :
    (calculateTripValue { v with seniorityYears := v.seniorityYears + 2 }).perdiem =
      (calculateTripValue v).perdiem + 0.05 := by
  have hfl : ⌊(v.seniorityYears + 2) / 2⌋ = ⌊v.seniorityYears / 2⌋ + 1 := by
    have h2 : (v.seniorityYears + 2) / 2 = v.seniorityYears / 2 + 1 := by ring
    rw [h2, Int.floor_add_one]
  simp only [calculateTripValue, perdiem, seniorityFactor]
  cases hit : v.internationalTrip <;> simp [hit, hfl] <;> try push_cast
  all_goals ring

/-- Witness for C5 at Scenario A's input. -/
theorem C5_seniority_shift_witness :
    Validated vA ∧
    (calculateTripValue { vA with seniorityYears := vA.seniorityYears + 2 }).perdiem =
      (calculateTripValue vA).perdiem + 0.05 :=
  ⟨by decide, C5_seniority_shift vA (by decide)⟩

/-- C9: for every validated input every component of the result is
non-negative, and the per-diem rate is at least 2.20. -/
theorem C9_result_nonneg (v : FormValues) (hv : Validated v) :
    0 ≤ (calculateTripValue v).perdiem ∧
    0 ≤ (calculateTripValue v).perdiemValue ∧
    0 ≤ (calculateTripValue v).positionCredit ∧
    0 ≤ (calculateTripValue v).internationalCredit ∧
    0 ≤ (calculateTripValue v).nightPayCredit ∧
    0 ≤ (calculateTripValue v).totalTripValue ∧
    2.2 ≤ (calculateTripValue v).perdiem := by
  obtain ⟨hs, ht, hr, hc, hn, hw⟩ := hv
  have hsf : (0 : ℚ) ≤ (seniorityFactor v : ℚ) := by
    have h0 : (0 : ℤ) ≤ seniorityFactor v := by
      apply Int.le_floor.mpr
      push_cast
      linarith
    exact_mod_cast h0
  have hpd : (2.2 : ℚ) ≤ perdiem v := by
    unfold perdiem
    split <;> linarith
  have hpd0 : (0 : ℚ) ≤ perdiem v := le_trans (by norm_num) hpd
  have hpv : 0 ≤ perdiemValue v := mul_nonneg ht hpd0
  have hic : 0 ≤ internationalCredit v := by
    unfold internationalCredit
    split <;> linarith
  have hpc : 0 ≤ positionCredit v := by
    unfold positionCredit
    split_ifs <;> first | exact hw | linarith
  have hnp : 0 ≤ nightPayCredit v := by
    unfold nightPayCredit
    linarith
  have hbv : 0 ≤ baseValue v := mul_nonneg hr hc
  have htot : 0 ≤ totalTripValue v := by
    unfold totalTripValue
    linarith
  exact ⟨hpd0, hpv, hpc, hic, hnp, htot, hpd⟩

/-- Witness for C9 at Scenario B's input. -/
theorem C9_result_nonneg_witness :
    Validated vB ∧
    (0 ≤ (calculateTripValue vB).perdiem ∧
    0 ≤ (calculateTripValue vB).perdiemValue ∧
    0 ≤ (calculateTripValue vB).positionCredit ∧
    0 ≤ (calculateTripValue vB).internationalCredit ∧
    0 ≤ (calculateTripValue vB).nightPayCredit ∧
    0 ≤ (calculateTripValue vB).totalTripValue ∧
    2.2 ≤ (calculateTripValue vB).perdiem) :=
  ⟨by decide, C9_result_nonneg vB (by decide)⟩

/-- C10: for a validated Speaker input the whole result is independent of
`aircraft`, the regional flag, and `hoursInWidebody`; and for any
non-Purser position the result is independent of `aircraft` and the
regional flag. -/
theorem C10_result_noninterference :
    (∀ v₁ v₂ : FormValues, Validated v₁ → Validated v₂ →
      v₁.position = Position.Speaker → v₂.position = Position.Speaker →
      v₁.internationalTrip = v₂.internationalTrip →
      v₁.seniorityYears = v₂.seniorityYears →
      v₁.tafb = v₂.tafb →
      v₁.hourlyRate = v₂.hourlyRate →
      v₁.credit = v₂.credit →
      v₁.nightPayHours = v₂.nightPayHours →
      calculateTripValue v₁ = calculateTripValue v₂) ∧
    (∀ v₁ v₂ : FormValues, Validated v₁ → Validated v₂ →
      v₁.position = v₂.position → v₁.position ≠ Position.Purser →
      v₁.internationalTrip = v₂.internationalTrip →
      v₁.seniorityYears = v₂.seniorityYears →
      v₁.tafb = v₂.tafb →
      v₁.hourlyRate = v₂.hourlyRate →
      v₁.credit = v₂.credit →
      v₁.nightPayHours = v₂.nightPayHours →
      v₁.hoursInWidebody = v₂.hoursInWidebody →
      calculateTripValue v₁ = calculateTripValue v₂) := by
  constructor
  · intro v₁ v₂ _ _ hp₁ hp₂ hit hsy htf hhr hcr hnp
    ext <;> simp [calculateTripValue, perdiem, perdiemValue, positionCredit,
      internationalCredit, nightPayCredit, baseValue, totalTripValue,
      seniorityFactor, hp₁, hp₂, hit, hsy, htf, hhr, hcr, hnp]
  · intro v₁ v₂ _ _ hpos hnpu hit hsy htf hhr hcr hnp hw
    cases hv2 : v₂.position
    case Purser => exact absurd (hpos.trans hv2) hnpu
    case Speaker =>
      ext <;> simp [calculateTripValue, perdiem, perdiemValue, positionCredit,
        internationalCredit, nightPayCredit, baseValue, totalTripValue,
        seniorityFactor, hpos, hv2, hit, hsy, htf, hhr, hcr, hnp, hw]
    case Galley =>
      ext <;> simp [calculateTripValue, perdiem, perdiemValue, positionCredit,
        internationalCredit, nightPayCredit, baseValue, totalTripValue,
        seniorityFactor, hpos, hv2, hit, hsy, htf, hhr, hcr, hnp, hw]

/-- Scenario A's input with the three Speaker-irrelevant fields changed:
an aircraft, the regional flag, and widebody hours. -/
def vAvaried : FormValues :=
  { vA with aircraft := some "widebody", isMexicoCaribbean := true, hoursInWidebody := some 7 }

/-- Witness for C10: two concrete Speaker inputs differing only in
`aircraft`, the regional flag, and `hoursInWidebody` give the same result. -/
theorem C10_result_noninterference_witness :
    Validated vA ∧ Validated vAvaried ∧
    calculateTripValue vA = calculateTripValue vAvaried :=
  ⟨by decide, by decide,
    C10_result_noninterference.1 vA vAvaried
      (by decide) (by decide) rfl rfl rfl rfl rfl rfl rfl rfl⟩

/-! ## The input validator (`formSchema`) -/

/-- One zod issue: the offending field's name and its message. -/
structure FieldError where
  field : String
  message : String
deriving DecidableEq

/-- The raw candidate record handed to `formSchema`. A numeric entry is
`none` when `z.coerce.number()` cannot produce a real number from it and
`some q` when it coerces to `q`; `hoursInWidebody`'s outer option is the
presence of the field; `position` is an arbitrary string checked against
the enum. -/
structure RawInput where
  internationalTrip : Bool
  seniorityYears : Option ℚ
  tafb : Option ℚ
  hourlyRate : Option ℚ
  credit : Option ℚ
  position : String
  isMexicoCaribbean : Bool
  nightPayHours : Option ℚ
  aircraft : Option String
  hoursInWidebody : Option (Option ℚ)
deriving DecidableEq

/-- `z.coerce.number().min(0, msg)`: when the coercion fails (`Number(input)`
is NaN) zod raises an invalid-type issue with its default message
"Expected number, received nan"; only when the coerced value is below 0
does the custom `.min(0)` message `msg` apply; no issue otherwise. -/
def numErr (fname msg : String) (x : Option ℚ) : List FieldError :=
  match x with
  | none => [{ field := fname, message := "Expected number, received nan" }]
  | some q => if q < 0 then [{ field := fname, message := msg }] else []

/-- `z.coerce.number().min(0, msg).optional()`: an absent field is accepted. -/
def optNumErr (fname msg : String) (x : Option (Option ℚ)) : List FieldError :=
  match x with
  | none => []
  | some y => numErr fname msg y

/-- `z.enum(["Speaker", "Galley", "Purser"])`. -/
def positionErr (s : String) : List FieldError :=
  if s ∈ ["Speaker", "Galley", "Purser"] then []
  else [{ field := "position", message := "Invalid enum value" }]

/-- All issues of one `formSchema.parse` call, in schema field order; zod
checks every field of the object and accumulates the issues.
(`internationalTrip`, `isMexicoCaribbean` and `aircraft` can produce no
issue here: the two booleans are already typed and
`z.string().optional()` accepts any optional string.) -/
def collectErrors (r : RawInput) : List FieldError :=
  numErr "seniorityYears" "Seniority years must be a positive number" r.seniorityYears
    ++ numErr "tafb" "TAFB must be a positive number" r.tafb
    ++ numErr "hourlyRate" "Hourly rate must be a positive number" r.hourlyRate
    ++ numErr "credit" "Credit hours must be a positive number" r.credit
    ++ positionErr r.position
    ++ numErr "nightPayHours" "Night pay hours must be a positive number" r.nightPayHours
    ++ optNumErr "hoursInWidebody" "Hours in widebody must be a positive number" r.hoursInWidebody

/-- The canonical value of the `position` enum. -/
def parsePosition (s : String) : Option Position :=
  if s = "Speaker" then some Position.Speaker
  else if s = "Galley" then some Position.Galley
  else if s = "Purser" then some Position.Purser
  else none

/-- `formSchema.parse`: the typed record when there is no issue, the
accumulated issue list otherwise. (On the success path every `getD`
default is dead: an empty issue list forces every required numeric field
to hold a coerced value and `position` to parse.) -/
def validateRaw (r : RawInput) : Except (List FieldError) FormValues :=
  if collectErrors r = [] then
    Except.ok
      { internationalTrip := r.internationalTrip
        seniorityYears := r.seniorityYears.getD 0
        tafb := r.tafb.getD 0
        hourlyRate := r.hourlyRate.getD 0
        credit := r.credit.getD 0
        position := (parsePosition r.position).getD Position.Speaker
        isMexicoCaribbean := r.isMexicoCaribbean
        nightPayHours := r.nightPayHours.getD 0
        aircraft := r.aircraft
        hoursInWidebody := r.hoursInWidebody.getD none }
  else Except.error (collectErrors r)

/-- The six numeric fields guarded by `.min(0)`. -/
inductive NumField where
  | seniorityYears
  | tafb
  | hourlyRate
  | credit
  | nightPayHours
  | hoursInWidebody
deriving DecidableEq

/-- The schema key of a numeric field. -/
def NumField.fieldName : NumField → String
  | .seniorityYears => "seniorityYears"
  | .tafb => "tafb"
  | .hourlyRate => "hourlyRate"
  | .credit => "credit"
  | .nightPayHours => "nightPayHours"
  | .hoursInWidebody => "hoursInWidebody"

/-- The human label that opens the field's error message. -/
def NumField.label : NumField → String
  | .seniorityYears => "Seniority years"
  | .tafb => "TAFB"
  | .hourlyRate => "Hourly rate"
  | .credit => "Credit hours"
  | .nightPayHours => "Night pay hours"
  | .hoursInWidebody => "Hours in widebody"

/-- The raw content of a numeric field: `none` when the (optional) field is
absent, `some none` when present but not coercible, `some (some q)` when it
coerces to `q`. The five required fields are always present. -/
def NumField.rawValue (r : RawInput) : NumField → Option (Option ℚ)
  | .seniorityYears => some r.seniorityYears
  | .tafb => some r.tafb
  | .hourlyRate => some r.hourlyRate
  | .credit => some r.credit
  | .nightPayHours => some r.nightPayHours
  | .hoursInWidebody => r.hoursInWidebody

theorem mem_numErr_iff {e : FieldError} {n m : String} {x : Option ℚ} :
    e ∈ numErr n m x ↔
      (e = { field := n, message := "Expected number, received nan" } ∧ x = none) ∨
        (e = { field := n, message := m } ∧ ∃ q, x = some q ∧ q < 0) := by
  cases x with
  | none => simp [numErr]
  | some q =>
    by_cases hq : q < 0
    · simp [numErr, hq]
    · simp [numErr, hq]

theorem mem_optNumErr_iff {e : FieldError} {n m : String} {x : Option (Option ℚ)} :
    e ∈ optNumErr n m x ↔
      (e = { field := n, message := "Expected number, received nan" } ∧
          x = some none) ∨
        (e = { field := n, message := m } ∧ ∃ q, x = some (some q) ∧ q < 0) := by
  cases x with
  | none => simp [optNumErr]
  | some y =>
    cases y with
    | none => simp [optNumErr, mem_numErr_iff]
    | some q => simp [optNumErr, mem_numErr_iff]

theorem mem_positionErr_field {e : FieldError} {s : String} (h : e ∈ positionErr s) :
    e.field = "position" := by
  unfold positionErr at h
  split at h <;> simp_all

theorem numErr_nil_iff {n m : String} {x : Option ℚ} :
    numErr n m x = [] ↔ ∃ q, x = some q ∧ 0 ≤ q := by
  cases x with
  | none => simp [numErr]
  | some q =>
    by_cases hq : q < 0
    · simp [numErr, hq]
    · simp [numErr, hq]
      linarith [not_lt.mp hq]

theorem positionErr_nil_iff {s : String} :
    positionErr s = [] ↔ s ∈ ["Speaker", "Galley", "Purser"] := by
  unfold positionErr
  split <;> simp_all

theorem mem_positionErr_iff {e : FieldError} {s : String} :
    e ∈ positionErr s ↔
      e = { field := "position", message := "Invalid enum value" } ∧
        s ∉ ["Speaker", "Galley", "Purser"] := by
  unfold positionErr
  split <;> simp_all

theorem exists_mem_append {α : Type} {l₁ l₂ : List α} {P : α → Prop} :
    (∃ e ∈ l₁ ++ l₂, P e) ↔ (∃ e ∈ l₁, P e) ∨ (∃ e ∈ l₂, P e) := by
  simp [List.mem_append, or_and_right, exists_or]

theorem exists_field_numErr {n m F : String} {x : Option ℚ} :
    (∃ e ∈ numErr n m x, e.field = F) ↔
      n = F ∧ (x = none ∨ ∃ q, x = some q ∧ q < 0) := by
  cases x with
  | none => simp [numErr]
  | some q =>
    by_cases hq : q < 0
    · simp [numErr, hq]
    · simp [numErr, hq]

theorem exists_field_optNumErr {n m F : String} {x : Option (Option ℚ)} :
    (∃ e ∈ optNumErr n m x, e.field = F) ↔
      n = F ∧ (x = some none ∨ ∃ q, x = some (some q) ∧ q < 0) := by
  cases x with
  | none => simp [optNumErr]
  | some y =>
    cases y with
    | none => simp [optNumErr, exists_field_numErr]
    | some q => simp [optNumErr, exists_field_numErr]

theorem exists_field_positionErr {s F : String} :
    (∃ e ∈ positionErr s, e.field = F) ↔
      "position" = F ∧ s ∉ ["Speaker", "Galley", "Purser"] := by
  unfold positionErr
  split <;> simp_all

theorem optNumErr_nil_iff {n m : String} {x : Option (Option ℚ)} :
    optNumErr n m x = [] ↔ x = none ∨ ∃ q, x = some (some q) ∧ 0 ≤ q := by
  cases x with
  | none => simp [optNumErr]
  | some y => simp [optNumErr, numErr_nil_iff]

/-- Acceptance of one coerced numeric entry: present and non-negative. -/
def numOk (x : Option ℚ) : Bool :=
  match x with
  | none => false
  | some q => decide (0 ≤ q)

/-- Acceptance of the required fields alone: the five required numeric
fields coerce to non-negative values and `position` is one of the three
enum literals. Reads neither `aircraft` nor `hoursInWidebody`. -/
def requiredOk (r : RawInput) : Bool :=
  numOk r.seniorityYears && numOk r.tafb && numOk r.hourlyRate && numOk r.credit
    && decide (r.position ∈ ["Speaker", "Galley", "Purser"]) && numOk r.nightPayHours

theorem numOk_iff {x : Option ℚ} : numOk x = true ↔ ∃ q, x = some q ∧ 0 ≤ q := by
  cases x <;> simp [numOk]

/-- With `hoursInWidebody` absent, the issue list is empty exactly when the
required fields are accepted. -/
theorem collectErrors_nil_iff (r : RawInput) (hw : r.hoursInWidebody = none) :
    collectErrors r = [] ↔ requiredOk r = true := by
  simp [collectErrors, hw, optNumErr, requiredOk, numOk_iff, numErr_nil_iff,
    positionErr_nil_iff, Bool.and_eq_true, decide_eq_true_iff, and_assoc]

/-- A successfully validated record satisfies `Validated`. -/
theorem validateRaw_ok_validated (r : RawInput) (v : FormValues)
    (h : validateRaw r = Except.ok v) : Validated v := by
  unfold validateRaw at h
  split at h
  case isFalse => exact absurd h (by simp)
  case isTrue h0 =>
    simp only [collectErrors, List.append_eq_nil] at h0
    obtain ⟨⟨⟨⟨⟨⟨h1, h2⟩, h3⟩, h4⟩, hpos⟩, h5⟩, hww⟩ := h0
    rw [numErr_nil_iff] at h1 h2 h3 h4 h5
    rw [optNumErr_nil_iff] at hww
    obtain ⟨q1, e1, g1⟩ := h1
    obtain ⟨q2, e2, g2⟩ := h2
    obtain ⟨q3, e3, g3⟩ := h3
    obtain ⟨q4, e4, g4⟩ := h4
    obtain ⟨q5, e5, g5⟩ := h5
    cases h
    rcases hww with hww | ⟨q6, e6, g6⟩
    · exact ⟨by simp [e1, g1], by simp [e2, g2], by simp [e3, g3],
        by simp [e4, g4], by simp [e5, g5], by simp [Validated, hww]⟩
    · exact ⟨by simp [e1, g1], by simp [e2, g2], by simp [e3, g3],
        by simp [e4, g4], by simp [e5, g5], by simp [Validated, e6, g6]⟩

/-- The field-scoped error that the schema reports for a numeric field. -/
def expectedErr (f : NumField) : FieldError :=
  { field := f.fieldName, message := f.label ++ " must be a positive number" }

/-- C6: a negative value in any numeric field is rejected with an error
naming that field, and every violating field of the same submission is
reported in the same error list. -/
theorem C6_negative_value_reported (r : RawInput) (f : NumField) (q : ℚ)
    (hq : NumField.rawValue r f = some (some q)) (hneg : q < 0) :
    expectedErr f ∈ collectErrors r ∧
    ∃ errs, validateRaw r = Except.error errs ∧ expectedErr f ∈ errs := by
  have hmem : expectedErr f ∈ collectErrors r := by
    cases f <;>
      simp_all [collectErrors, mem_numErr_iff, mem_optNumErr_iff, mem_positionErr_iff,
        NumField.rawValue, NumField.fieldName, NumField.label, expectedErr]
  have hne : collectErrors r ≠ [] := List.ne_nil_of_mem hmem
  refine ⟨hmem, collectErrors r, ?_, hmem⟩
  unfold validateRaw
  rw [if_neg hne]

/-- A submission whose `seniorityYears` is -1 and whose `tafb` is -5, with
every other field acceptable. -/
def rTwoNegatives : RawInput :=
  { internationalTrip := false, seniorityYears := some (-1), tafb := some (-5),
    hourlyRate := some 50, credit := some 20, position := "Speaker",
    isMexicoCaribbean := false, nightPayHours := some 0, aircraft := none,
    hoursInWidebody := none }

/-- Witness for C6: the two-negative-field submission gets a field error
for each of the two fields in the same call. -/
theorem C6_negative_value_reported_witness :
    expectedErr NumField.seniorityYears ∈ collectErrors rTwoNegatives ∧
    expectedErr NumField.tafb ∈ collectErrors rTwoNegatives :=
  ⟨(C6_negative_value_reported rTwoNegatives NumField.seniorityYears (-1)
      rfl (by norm_num)).1,
   (C6_negative_value_reported rTwoNegatives NumField.tafb (-5)
      rfl (by norm_num)).1⟩

/-- Any issue scoped to a numeric field comes from that field's own check:
it carries the default invalid-type message and records a coercion
failure, or it carries the field's `.min(0)` message and records a
negative coerced value. -/
theorem collectErrors_field_cases (r : RawInput) (e : FieldError)
    (h : e ∈ collectErrors r) (f : NumField) (hf : e.field = f.fieldName) :
    (e.message = "Expected number, received nan" ∧
        NumField.rawValue r f = some none) ∨
      (e.message = f.label ++ " must be a positive number" ∧
        ∃ q, NumField.rawValue r f = some (some q) ∧ q < 0) := by
  simp only [collectErrors, List.mem_append, mem_numErr_iff, mem_optNumErr_iff,
    mem_positionErr_iff, or_assoc] at h
  cases f <;>
    rcases h with ⟨rfl, hc⟩ | ⟨rfl, hc⟩ | ⟨rfl, hc⟩ | ⟨rfl, hc⟩ | ⟨rfl, hc⟩ |
      ⟨rfl, hc⟩ | ⟨rfl, hc⟩ | ⟨rfl, hc⟩ | ⟨rfl, hc⟩ | ⟨rfl, hc⟩ | ⟨rfl, hc⟩ |
      ⟨rfl, hc⟩ | ⟨rfl, hc⟩ <;>
    simp_all +decide [NumField.fieldName, NumField.label, NumField.rawValue]

/-- C7 (amended): for every raw input and numeric field, validation reports
an error scoped to that field exactly when coercion fails or the coerced
value is negative (0 is accepted); when the value is negative the message
is the field's human label followed by " must be a positive number", but
when coercion fails the message is zod's default invalid-type message
"Expected number, received nan", not the custom one. -/
theorem C7_numeric_error_characterization (r : RawInput) (f : NumField) :
    ((∃ e ∈ collectErrors r, e.field = f.fieldName) ↔
      (NumField.rawValue r f = some none ∨
        ∃ q, NumField.rawValue r f = some (some q) ∧ q < 0)) ∧
    (NumField.rawValue r f = some none →
      ∀ e ∈ collectErrors r, e.field = f.fieldName →
        e.message = "Expected number, received nan") ∧
    (∀ q, NumField.rawValue r f = some (some q) → q < 0 →
      ∀ e ∈ collectErrors r, e.field = f.fieldName →
        e.message = f.label ++ " must be a positive number") := by
  refine ⟨?_, ?_, ?_⟩
  · cases f <;>
      (simp only [collectErrors, exists_mem_append, exists_field_numErr,
        exists_field_optNumErr, exists_field_positionErr, NumField.rawValue,
        NumField.fieldName]
       simp +decide)
  · intro hnone e he hf
    rcases collectErrors_field_cases r e he f hf with ⟨hm, -⟩ | ⟨hm, hq⟩
    · exact hm
    · obtain ⟨q, hq1, -⟩ := hq
      rw [hnone] at hq1
      simp at hq1
  · intro q hq hneg e he hf
    rcases collectErrors_field_cases r e he f hf with ⟨hm, hn⟩ | ⟨hm, -⟩
    · rw [hq] at hn
      simp at hn
    · exact hm

/-- A submission whose `credit` entry does not coerce to a number. -/
def rCreditFails : RawInput :=
  { internationalTrip := true, seniorityYears := some 3, tafb := some 12,
    hourlyRate := some 40, credit := none, position := "Purser",
    isMexicoCaribbean := true, nightPayHours := some 2,
    aircraft := some "A320", hoursInWidebody := none }

/-- Counterexample to C7 as stated: when `credit` fails to coerce, the
reported `credit`-scoped error does not carry the
"Credit hours must be a positive number" message. -/
theorem C7_claim_counterexample :
    ∃ e ∈ collectErrors rCreditFails, e.field = NumField.credit.fieldName ∧
      e.message ≠ NumField.credit.label ++ " must be a positive number" := by
  refine ⟨{ field := "credit", message := "Expected number, received nan" }, ?_, rfl, ?_⟩
  · decide
  · decide

/-- Witness for the amended C7 at the concrete raw input whose `credit`
fails to coerce (C7 has only non-Prop binders; the instantiation is still
given). -/
theorem C7_numeric_error_characterization_witness :
    ((∃ e ∈ collectErrors rCreditFails, e.field = NumField.credit.fieldName) ↔
      (NumField.rawValue rCreditFails NumField.credit = some none ∨
        ∃ q, NumField.rawValue rCreditFails NumField.credit = some (some q) ∧ q < 0)) ∧
    (NumField.rawValue rCreditFails NumField.credit = some none →
      ∀ e ∈ collectErrors rCreditFails, e.field = NumField.credit.fieldName →
        e.message = "Expected number, received nan") ∧
    (∀ q, NumField.rawValue rCreditFails NumField.credit = some (some q) → q < 0 →
      ∀ e ∈ collectErrors rCreditFails, e.field = NumField.credit.fieldName →
        e.message = NumField.credit.label ++ " must be a positive number") :=
  C7_numeric_error_characterization rCreditFails NumField.credit

/-- C8: for every raw input, the two optional fields never cause
validation to fail. Changing `aircraft` — to any value, present or absent —
never changes the outcome; and omitting `hoursInWidebody` makes the
outcome exactly the acceptance of the required fields, a condition that
reads neither optional field. So omitting `aircraft`, `hoursInWidebody`,
or both never fails validation, whatever the chosen `position`. -/
theorem C8_optional_fields_never_fail (r : RawInput) :
    (∀ a, (∃ v, validateRaw { r with aircraft := a } = Except.ok v) ↔
      (∃ v, validateRaw r = Except.ok v)) ∧
    ((∃ v, validateRaw { r with hoursInWidebody := none } = Except.ok v) ↔
      requiredOk r = true) := by
  constructor
  · intro a
    unfold validateRaw
    have hc : collectErrors { r with aircraft := a } = collectErrors r := rfl
    rw [hc]
    by_cases h : collectErrors r = [] <;> simp [h]
  · have key := collectErrors_nil_iff { r with hoursInWidebody := none } rfl
    unfold validateRaw
    by_cases h : collectErrors { r with hoursInWidebody := none } = []
    · simp only [h, if_pos]
      have hreq : requiredOk r = true := key.mp h
      simp [hreq]
    · rw [if_neg h]
      simp only [reduceCtorEq, exists_false, false_iff]
      intro hreq
      exact h (key.mpr hreq)

/-- A Purser submission that omits both optional fields. -/
def rPurserBare : RawInput :=
  { internationalTrip := false, seniorityYears := some 2, tafb := some 8,
    hourlyRate := some 35, credit := some 10, position := "Purser",
    isMexicoCaribbean := true, nightPayHours := some 1, aircraft := none,
    hoursInWidebody := none }

/-- Witness for C8 at the bare Purser submission (C8 has only a non-Prop
binder; the instantiation is still given). -/
theorem C8_optional_fields_never_fail_witness :
    (∀ a, (∃ v, validateRaw { rPurserBare with aircraft := a } = Except.ok v) ↔
      (∃ v, validateRaw rPurserBare = Except.ok v)) ∧
    ((∃ v, validateRaw { rPurserBare with hoursInWidebody := none } = Except.ok v) ↔
      requiredOk rPurserBare = true) :=
  C8_optional_fields_never_fail rPurserBare

end TripCalc
